import Mathlib

/-!
Shallow embedding of the imagen3-mcp server (src/main.rs) and verification
of its specification claims.

The repository is a single Rust file implementing an MCP server exposing a
generate_image tool, an HTTP asset server, and an on-disk artifact store.
External collaborators (the network, serde_json, the clock, the nanoid
randomness source, the filesystem) are modelled as explicit environment
fields; the control flow of each embedded function follows the Rust source
line by line.
-/

namespace Imagen3Mcp

/-! Local date-time values, as produced by chrono::Local::now(). -/

structure LocalDateTime where
  year : Nat
  month : Nat
  day : Nat
  hour : Nat
  minute : Nat
  second : Nat
deriving DecidableEq

/-- Digit characters of n, most significant first, empty for 0; the fuel
argument (any value at least n) makes the recursion structural. -/
def natDecimalAux : Nat → Nat → List Char
  | 0, _ => []
  | fuel + 1, n =>
    if n = 0 then []
    else natDecimalAux fuel (n / 10) ++ [Char.ofNat (48 + n % 10)]

/-- Decimal rendering of a natural number, as Rust's Display for integers:
most-significant digit first, and 0 renders as "0". -/
def natDecimal (n : Nat) : List Char :=
  if n = 0 then ['0'] else natDecimalAux n n

/-- Left-pad a digit string with zeros to width w, as chrono's zero-padded
numeric format specifiers do. -/
def padZeros (w : Nat) (s : List Char) : List Char :=
  List.replicate (w - s.length) '0' ++ s

/-- Character sequence of the "%Y%m%d%H%M%S" rendering: year zero-padded
to four digits, every other field zero-padded to two digits. -/
def formatTimestampChars (t : LocalDateTime) : List Char :=
  padZeros 4 (natDecimal t.year) ++ padZeros 2 (natDecimal t.month) ++
    padZeros 2 (natDecimal t.day) ++ padZeros 2 (natDecimal t.hour) ++
    padZeros 2 (natDecimal t.minute) ++ padZeros 2 (natDecimal t.second)

/-- chrono formatting with the format string "%Y%m%d%H%M%S" used at
src/main.rs line 67, at second precision. -/
def formatTimestamp (t : LocalDateTime) : String :=
  ⟨formatTimestampChars t⟩

/-- The default alphabet of the nanoid crate (nanoid::alphabet::SAFE):
underscore, hyphen, the ten digits, the lowercase letters, then the
uppercase letters — 64 URL-safe symbols. -/
def urlAlphabet : List Char :=
  ['_', '-'] ++ ((List.range 10).map fun i => Char.ofNat (48 + i)) ++
    ((List.range 26).map fun i => Char.ofNat (97 + i)) ++
    ((List.range 26).map fun i => Char.ofNat (65 + i))

theorem urlAlphabet_length : urlAlphabet.length = 64 := rfl

/-- The nanoid!(len) macro of the nanoid crate: len symbols drawn from the
default 64-symbol alphabet, the randomness source supplying one alphabet
index per position. -/
def nanoid (len : Nat) (r : Nat → Fin 64) : String :=
  ⟨(List.range len).map fun i => urlAlphabet.get (Fin.cast urlAlphabet_length.symm (r i))⟩

/-! Base64: the base64 crate's general_purpose::STANDARD engine.  Canonical
padding is required and trailing bits must be zero (the engine's default
decode configuration). -/

/-- Value of one symbol of the standard base64 alphabet. -/
def base64DigitVal (c : Char) : Option Nat :=
  if 'A' ≤ c ∧ c ≤ 'Z' then some (c.toNat - 65)
  else if 'a' ≤ c ∧ c ≤ 'z' then some (c.toNat - 97 + 26)
  else if '0' ≤ c ∧ c ≤ '9' then some (c.toNat - 48 + 52)
  else if c = '+' then some 62
  else if c = '/' then some 63
  else none

/-- Decode a base64 character stream four symbols at a time; padding is
accepted only in the final group and non-canonical trailing bits are
rejected, matching general_purpose::STANDARD.decode. -/
def base64DecodeChars : List Char → Option (List Nat)
  | [] => some []
  | [a, b, '=', '='] =>
    match base64DigitVal a, base64DigitVal b with
    | some x, some y => if y % 16 = 0 then some [x * 4 + y / 16] else none
    | _, _ => none
  | [a, b, c, '='] =>
    match base64DigitVal a, base64DigitVal b, base64DigitVal c with
    | some x, some y, some z =>
      if z % 4 = 0 then some [x * 4 + y / 16, y % 16 * 16 + z / 4] else none
    | _, _, _ => none
  | a :: b :: c :: d :: rest =>
    match base64DigitVal a, base64DigitVal b, base64DigitVal c, base64DigitVal d with
    | some x, some y, some z, some w =>
      match base64DecodeChars rest with
      | some tail => some ([x * 4 + y / 16, y % 16 * 16 + z / 4, z % 4 * 64 + w] ++ tail)
      | none => none
    | _, _, _, _ => none
  | _ => none

/-- base64::engine::general_purpose::STANDARD.decode on a string. -/
def base64Decode (s : String) : Option (List Nat) :=
  base64DecodeChars s.data

/-! The Gemini API data model (src/main.rs lines 31-59). -/

structure GeminiInstance where
  prompt : String
deriving DecidableEq

structure GeminiParameters where
  sample_count : Int
deriving DecidableEq

structure GeminiRequest where
  instances : List GeminiInstance
  parameters : GeminiParameters
deriving DecidableEq

structure GeminiPrediction where
  mime_type : String
  bytes_base64_encoded : String
deriving DecidableEq

structure GeminiResponse where
  predictions : List GeminiPrediction
deriving DecidableEq

/-! Error taxonomy of generate_image_from_gemini (src/main.rs lines 62-130).
The Rust code returns Box of dyn Error; each variant below records one
failure site, and GenError.toMessage renders the Display string the Rust
caller would see.  Messages originating in external libraries (reqwest,
serde_json's error Display, the base64 crate, std::io) are carried or
abstracted as strings. -/

inductive GenError where
  | configError : GenError
  | httpError (msg : String) : GenError
  | parseError (err body : String) : GenError
  | emptyResult : GenError
  | decodeError : GenError
  | storeError (msg : String) : GenError
deriving DecidableEq

def GenError.toMessage : GenError → String
  | .configError => "GEMINI_API_KEY environment variable not set"
  | .httpError msg => msg
  | .parseError err body =>
    "Failed to parse Gemini response: " ++ err ++ "\nThe response was: " ++ body
  | .emptyResult => "No images were generated"
  | .decodeError => "invalid base64 data"
  | .storeError msg => msg

/-- Result of one run of generate_image_from_gemini.  indexOutOfBounds
models a Rust panic at the indexing expression response.predictions[0]
(line 120): a panic returns no value to the caller; it is proved
unreachable below. -/
inductive GenResult where
  | ok (filename : String) : GenResult
  | err (e : GenError) : GenResult
  | indexOutOfBounds : GenResult
deriving DecidableEq

/-- State of the artifact store: the files successfully written, as
path paired with byte content.  fs::write is all-or-nothing here in the
sense that only completed writes are recorded; the on-disk outcome of a
failed write call is not modelled (no claim depends on it). -/
structure FsState where
  files : List (String × List Nat)
deriving DecidableEq

/-- Environment of one invocation of generate_image_from_gemini: the
process environment variables, the clock, the nanoid randomness source,
and the outcomes of the external calls (reqwest POST plus text, serde_json
parsing, fs::write). -/
structure Env where
  geminiApiKey : Option String
  baseUrl : Option String
  now : LocalDateTime
  rand : Nat → Fin 64
  httpResult : Except String String
  parseGemini : String → Except String GeminiResponse
  writeError : Option String

/-- Embedding of generate_image_from_gemini (src/main.rs lines 62-130),
following the source order: compose the filename, read GEMINI_API_KEY,
build the request and URL, issue the POST, parse the body, require a
non-empty prediction list, base64-decode the first prediction, write the
file. -/
def generate_image_from_gemini (env : Env) (fs : FsState) (prompt : String)
    (resources_path : String) : GenResult × FsState :=
  let timestamp := formatTimestamp env.now
  let id := nanoid 10 env.rand
  let filename := id ++ "_" ++ timestamp ++ ".png"
  let path := resources_path ++ "/images/" ++ filename
  match env.geminiApiKey with
  | none => (.err .configError, fs)
  | some api_key =>
    let request : GeminiRequest :=
      { instances := [{ prompt := prompt }], parameters := { sample_count := 1 } }
    let base_url := env.baseUrl.getD "https://generativelanguage.googleapis.com"
    let url := base_url ++ "/v1beta/models/imagen-3.0-generate-002:predict?key=" ++ api_key
    match env.httpResult with
    | .error e => (.err (.httpError e), fs)
    | .ok response_text =>
      match env.parseGemini response_text with
      | .error e => (.err (.parseError e response_text), fs)
      | .ok response =>
        if response.predictions.isEmpty then (.err .emptyResult, fs)
        else
          match response.predictions[0]? with
          | none => (.indexOutOfBounds, fs)
          | some prediction =>
            match base64Decode prediction.bytes_base64_encoded with
            | none => (.err .decodeError, fs)
            | some image_data =>
              match env.writeError with
              | some e => (.err (.storeError e), fs)
              | none => (.ok filename, { files := fs.files ++ [(path, image_data)] })

/-- The schema-described input of the tool (src/main.rs lines 22-28). -/
structure ImagePrompt where
  prompt : String
deriving DecidableEq

/-- Embedding of the generate_image tool method (src/main.rs lines
138-151).  The Rust method returns String unconditionally; the Option
layer carries the indexOutOfBounds panic case of the pipeline (none means
the method would not return), which is proved never to occur. -/
def generate_image (env : Env) (fs : FsState) (resources_path : String)
    (prompt : ImagePrompt) : Option String × FsState :=
  match generate_image_from_gemini env fs prompt.prompt resources_path with
  | (.ok filename, fs') => (some ("http://127.0.0.1:9981/images/" ++ filename), fs')
  | (.err e, fs') => (some ("Error generating image: " ++ e.toMessage), fs')
  | (.indexOutOfBounds, fs') => (none, fs')

/-! The artifact store: ensure_resources_dir (src/main.rs lines 314-340)
and list_images (lines 343-360). -/

/-- Filesystem directory state: the set of directories that exist. -/
structure DirFs where
  dirs : List String
deriving DecidableEq

/-- Platform environment of ensure_resources_dir: the resolution of
ProjectDirs (data_local_dir when the application-data directory is
determinable) and the outcomes of the two tokio::fs creation calls. -/
structure ProjectEnv where
  dataLocalDir : Option String
  createDirAllOk : Bool
  createDirOk : Bool
deriving DecidableEq

/-- Embedding of ensure_resources_dir (src/main.rs lines 314-340): resolve
ProjectDirs (NotFound error when impossible), derive the artifacts base
directory and its images subdirectory, create each only when it does not
already exist, and return the base path. -/
def ensure_resources_dir (env : ProjectEnv) (fs : DirFs) :
    Except String (String × DirFs) :=
  match env.dataLocalDir with
  | none => .error "Could not determine application data directory"
  | some base_dir =>
    let resources_path := base_dir ++ "/artifacts"
    let images_dir := resources_path ++ "/images"
    match (if resources_path ∈ fs.dirs then some fs
           else if env.createDirAllOk then some ⟨fs.dirs ++ [resources_path]⟩
           else none) with
    | none => .error "failed to create resources directory"
    | some fs1 =>
      match (if images_dir ∈ fs1.dirs then some fs1
             else if env.createDirOk then some ⟨fs1.dirs ++ [images_dir]⟩
             else none) with
      | none => .error "failed to create images directory"
      | some fs2 => .ok (resources_path, fs2)

/-- A filename as returned by std's directory iteration (an OsString):
either valid UTF-8 or not.  OsStr::to_str returns Some exactly on valid
UTF-8, which is all of the API surface the source uses. -/
inductive OsName where
  | utf8 (s : String) : OsName
  | nonUtf8 (bytes : List Nat) : OsName
deriving DecidableEq

def OsName.to_str : OsName → Option String
  | .utf8 s => some s
  | .nonUtf8 _ => none

/-- One directory entry delivered by read_dir: its bare name, and whether
entry.path().is_file() holds (true only for regular files; directories and
other kinds give false). -/
structure DirEntry where
  name : OsName
  is_file : Bool
deriving DecidableEq

/-- State of the images directory as seen by list_images: whether read_dir
and the entry iteration succeed, and the entries delivered. -/
structure ImagesDir where
  readable : Bool
  entries : List DirEntry
deriving DecidableEq

/-- Embedding of list_images (src/main.rs lines 343-360): iterate the
images directory, keep entries whose path is a regular file, and push the
entry's filename when it converts to UTF-8.  entry.path() is the images
directory joined with the entry's name, so path.file_name() is exactly
that bare name. -/
def list_images (dir : ImagesDir) : Except String (List String) :=
  if dir.readable then
    .ok (dir.entries.foldl
      (fun images entry =>
        if entry.is_file then
          match entry.name.to_str with
          | some filename_str => images ++ [filename_str]
          | none => images
        else images)
      [])
  else .error "could not read images directory"

/-! The process supervisor: main (src/main.rs lines 362-420), modelled as
the trace of externally observable events it performs, in order. -/

inductive Event where
  | ensureDirs : Event
  | printErr (msg : String) : Event
  | exitProcess (code : Nat) : Event
  | bindHttp (host : List Nat) (port : Nat) : Event
  | startMcp : Event
  | mcpExited : Event
  | abortHttp : Event
  | returnOk : Event
  | returnErr (msg : String) : Event
deriving DecidableEq

/-- Environment of one run of main: the outcome of ensure_resources_dir,
whether GEMINI_API_KEY is set, the outcome of the MCP handshake
(ServiceExt::serve), and the outcome of the serving loop (waiting). -/
structure MainEnv where
  ensureDirsResult : Except String String
  geminiKeySet : Bool
  serveResult : Except String Unit
  waitingResult : Except String Unit

/-- Embedding of main (src/main.rs lines 362-420) as an event trace.
returnOk is main returning Ok (process exit status 0); returnErr is main
returning Err through the question-mark operator (Rust prints the error
and exits with a non-zero status).  The GEMINI_API_KEY check precedes the
warp bind and the MCP serve; http_handle.abort() runs only after
mcp_future.await returns Ok. -/
def mainTrace (env : MainEnv) : List Event :=
  match env.ensureDirsResult with
  | .error e => [.ensureDirs, .returnErr e]
  | .ok _resources_path =>
    .ensureDirs ::
      (if env.geminiKeySet then
        .bindHttp [127, 0, 0, 1] 9981 :: .startMcp ::
          (match env.serveResult with
           | .error e => [.returnErr e]
           | .ok _ =>
             match env.waitingResult with
             | .error e => [.mcpExited, .returnErr e]
             | .ok _ => [.mcpExited, .abortHttp, .returnOk])
      else
        [.printErr "Error: GEMINI_API_KEY environment variable is not set. Image generation will fail.",
         .exitProcess 1])

/-! Helper lemmas. -/

/-- The indexing expression response.predictions[0] is guarded by the
emptiness check, so the panic branch of the pipeline is unreachable. -/
theorem generate_image_from_gemini_no_panic (env : Env) (fs : FsState)
    (prompt resources_path : String) :
    (generate_image_from_gemini env fs prompt resources_path).1 ≠
      GenResult.indexOutOfBounds := by
  unfold generate_image_from_gemini
  cases env.geminiApiKey with
  | none => simp
  | some key =>
    cases env.httpResult with
    | error e => simp
    | ok body =>
      cases hp : env.parseGemini body with
      | error e => simp [hp]
      | ok resp =>
        cases hl : resp.predictions with
        | nil => simp [hp, hl]
        | cons p rest =>
          cases hd : base64Decode p.bytes_base64_encoded with
          | none => simp [hp, hl, hd]
          | some image_data => cases env.writeError <;> simp [hp, hl, hd]

/-- C1: when the generation pipeline succeeds with filename f, the
generate_image tool returns exactly the string
"http://127.0.0.1:9981/images/" followed by f. -/
theorem C1_generate_image_url (env : Env) (fs : FsState) (resources_path : String)
    (prompt : ImagePrompt) (f : String) (fs' : FsState)
    (h : generate_image_from_gemini env fs prompt.prompt resources_path =
      (GenResult.ok f, fs')) :
    generate_image env fs resources_path prompt =
      (some ("http://127.0.0.1:9981/images/" ++ f), fs') := by
  simp [generate_image, h]

/-- C2: for every prompt and environment, the generate_image tool returns
a string (never a protocol-level fault), and on any pipeline failure that
string is a non-empty description of the error. -/
theorem C2_generate_image_always_string (env : Env) (fs : FsState)
    (resources_path : String) (prompt : ImagePrompt) :
    ∃ s : String, (generate_image env fs resources_path prompt).1 = some s ∧
      0 < s.length ∧
      ((∃ f fs', generate_image_from_gemini env fs prompt.prompt resources_path =
            (GenResult.ok f, fs') ∧ s = "http://127.0.0.1:9981/images/" ++ f) ∨
       (∃ e fs', generate_image_from_gemini env fs prompt.prompt resources_path =
            (GenResult.err e, fs') ∧
          s = "Error generating image: " ++ GenError.toMessage e)) := by
  rcases hg : generate_image_from_gemini env fs prompt.prompt resources_path with ⟨r, fsr⟩
  cases r with
  | ok f =>
    refine ⟨"http://127.0.0.1:9981/images/" ++ f, by simp [generate_image, hg], ?_, ?_⟩
    · simp only [String.length_append]
      have h29 : 0 < "http://127.0.0.1:9981/images/".length := by decide
      omega
    · exact Or.inl ⟨f, fsr, rfl, rfl⟩
  | err e =>
    refine ⟨"Error generating image: " ++ GenError.toMessage e,
      by simp [generate_image, hg], ?_, ?_⟩
    · simp only [String.length_append]
      have h24 : 0 < "Error generating image: ".length := by decide
      omega
    · exact Or.inr ⟨e, fsr, rfl, rfl⟩
  | indexOutOfBounds =>
    exact absurd (congrArg Prod.fst hg)
      (generate_image_from_gemini_no_panic env fs prompt.prompt resources_path)

/-- Inversion of a successful pipeline run: the returned filename is the
composed nanoid-underscore-timestamp name and exactly one file, under the
images subdirectory and bearing that name, was appended to the store. -/
theorem generate_ok_inv (env : Env) (fs : FsState) (prompt resources_path : String)
    (f : String) (fs' : FsState)
    (h : generate_image_from_gemini env fs prompt resources_path = (GenResult.ok f, fs')) :
    f = nanoid 10 env.rand ++ "_" ++ formatTimestamp env.now ++ ".png" ∧
    ∃ data, fs'.files = fs.files ++ [(resources_path ++ "/images/" ++ f, data)] := by
  unfold generate_image_from_gemini at h
  cases hk : env.geminiApiKey with
  | none => simp [hk] at h
  | some key =>
    cases hh : env.httpResult with
    | error e2 => simp [hk, hh] at h
    | ok body =>
      cases hp : env.parseGemini body with
      | error e2 => simp [hk, hh, hp] at h
      | ok resp =>
        cases hl : resp.predictions with
        | nil => simp [hk, hh, hp, hl] at h
        | cons p rest =>
          cases hd : base64Decode p.bytes_base64_encoded with
          | none => simp [hk, hh, hp, hl, hd] at h
          | some image_data =>
            cases hw : env.writeError with
            | some e2 => simp [hk, hh, hp, hl, hd, hw] at h
            | none =>
              simp [hk, hh, hp, hl, hd, hw] at h
              obtain ⟨hf, hfs⟩ := h
              subst hf
              exact ⟨rfl, image_data, by rw [← hfs]⟩

/-- Inversion of a failed pipeline run: every error branch of the source
returns before the fs::write call completes a new file, so the store is
unchanged. -/
theorem generate_err_fs (env : Env) (fs : FsState) (prompt resources_path : String)
    (e : GenError) (fs' : FsState)
    (h : generate_image_from_gemini env fs prompt resources_path = (GenResult.err e, fs')) :
    fs' = fs := by
  unfold generate_image_from_gemini at h
  cases hk : env.geminiApiKey with
  | none => simp [hk] at h; exact h.2.symm
  | some key =>
    cases hh : env.httpResult with
    | error e2 => simp [hk, hh] at h; exact h.2.symm
    | ok body =>
      cases hp : env.parseGemini body with
      | error e2 => simp [hk, hh, hp] at h; exact h.2.symm
      | ok resp =>
        cases hl : resp.predictions with
        | nil => simp [hk, hh, hp, hl] at h; exact h.2.symm
        | cons p rest =>
          cases hd : base64Decode p.bytes_base64_encoded with
          | none => simp [hk, hh, hp, hl, hd] at h; exact h.2.symm
          | some image_data =>
            cases hw : env.writeError with
            | some e2 => simp [hk, hh, hp, hl, hd, hw] at h; exact h.2.symm
            | none => simp [hk, hh, hp, hl, hd, hw] at h

/-- C3: a successful run of the generation function appends exactly one
file to the store, and a run failing with a missing credential, HTTP
failure, parse failure, empty prediction list, or base64 decode failure
leaves the store unchanged: the write happens only after the response is
fully validated and decoded. -/
theorem C3_one_file_or_none (env : Env) (fs : FsState) (prompt resources_path : String) :
    (∀ f fs', generate_image_from_gemini env fs prompt resources_path = (GenResult.ok f, fs') →
       ∃ data, fs'.files = fs.files ++ [(resources_path ++ "/images/" ++ f, data)] ∧
         fs'.files.length = fs.files.length + 1) ∧
    (∀ e fs', generate_image_from_gemini env fs prompt resources_path = (GenResult.err e, fs') →
       (e = GenError.configError ∨ (∃ m, e = GenError.httpError m) ∨
        (∃ a b, e = GenError.parseError a b) ∨ e = GenError.emptyResult ∨
        e = GenError.decodeError) →
       fs' = fs) := by
  constructor
  · intro f fs' h
    obtain ⟨-, data, hfs⟩ := generate_ok_inv env fs prompt resources_path f fs' h
    exact ⟨data, hfs, by simp [hfs]⟩
  · intro e fs' h _
    exact generate_err_fs env fs prompt resources_path e fs' h

/-- A concrete environment in which every external call succeeds and the
backend returns one well-formed prediction whose payload is the base64
string "AAAA" (three zero bytes). -/
def envOkSample : Env where
  geminiApiKey := some "k"
  baseUrl := none
  now := { year := 2025, month := 1, day := 2, hour := 3, minute := 4, second := 5 }
  rand := fun _ => 0
  httpResult := .ok "body"
  parseGemini := fun _ =>
    .ok { predictions := [{ mime_type := "image/png", bytes_base64_encoded := "AAAA" }] }
  writeError := none

/-- Witness for C1 at a concrete input: the pipeline succeeds with the
concrete composed filename and the tool returns the matching URL. -/
theorem C1_witness :
    generate_image envOkSample ⟨[]⟩ "/base" ⟨"a red cube"⟩ =
      (some ("http://127.0.0.1:9981/images/" ++ "___________20250102030405.png"),
        ⟨[("/base/images/___________20250102030405.png", [0, 0, 0])]⟩) :=
  C1_generate_image_url envOkSample ⟨[]⟩ "/base" ⟨"a red cube"⟩
    "___________20250102030405.png"
    ⟨[("/base/images/___________20250102030405.png", [0, 0, 0])]⟩ (by decide)

/-- Witness for C3 at a concrete input: the successful run appended
exactly the one concrete file. -/
theorem C3_witness :
    ∃ data, (⟨[("/base/images/___________20250102030405.png", [0, 0, 0])]⟩ : FsState).files =
      (⟨[]⟩ : FsState).files ++
        [("/base" ++ "/images/" ++ "___________20250102030405.png", data)] ∧
      (⟨[("/base/images/___________20250102030405.png", [0, 0, 0])]⟩ : FsState).files.length =
        (⟨[]⟩ : FsState).files.length + 1 :=
  (C3_one_file_or_none envOkSample ⟨[]⟩ "a red cube" "/base").1
    "___________20250102030405.png"
    ⟨[("/base/images/___________20250102030405.png", [0, 0, 0])]⟩ (by decide)

/-! Lemmas on decimal rendering, padding, and nanoid, for the filename
shape claim. -/

theorem natDecimalAux_length_le (fuel : Nat) : ∀ n k : Nat, n ≤ fuel → n < 10 ^ k →
    (natDecimalAux fuel n).length ≤ k := by
  induction fuel with
  | zero =>
    intro n k hfn _
    have hn : n = 0 := Nat.le_zero.mp hfn
    simp [natDecimalAux]
  | succ fuel ih =>
    intro n k hfn h
    by_cases hn : n = 0
    · simp [natDecimalAux, hn]
    · rw [natDecimalAux]
      simp only [hn, if_false, List.length_append, List.length_cons, List.length_nil]
      cases k with
      | zero =>
        exfalso
        have : n < 1 := by simpa using h
        omega
      | succ k =>
        have h1 : n / 10 ≤ fuel := by
          have := Nat.div_lt_self (Nat.pos_of_ne_zero hn) (by norm_num : (1:Nat) < 10)
          omega
        have h2 : n / 10 < 10 ^ k := by
          rw [Nat.div_lt_iff_lt_mul (by norm_num : (0:Nat) < 10)]
          calc n < 10 ^ (k + 1) := h
            _ = 10 ^ k * 10 := by ring
        have := ih (n / 10) k h1 h2
        omega

theorem natDecimal_length_le (n k : Nat) (hk : 1 ≤ k) (h : n < 10 ^ k) :
    (natDecimal n).length ≤ k := by
  unfold natDecimal
  by_cases hn : n = 0
  · simpa [hn] using hk
  · simp only [hn, if_false]
    exact natDecimalAux_length_le n n k le_rfl h

theorem padZeros_length (w : Nat) (s : List Char) (h : s.length ≤ w) :
    (padZeros w s).length = w := by
  simp only [padZeros, List.length_append, List.length_replicate]
  omega

theorem digitChar_isDigit (d : Nat) (h : d < 10) :
    (Char.ofNat (48 + d)).isDigit = true := by
  interval_cases d <;> decide

theorem natDecimalAux_digits (fuel : Nat) : ∀ n : Nat, ∀ c ∈ natDecimalAux fuel n,
    c.isDigit = true := by
  induction fuel with
  | zero => intro n c hc; simp [natDecimalAux] at hc
  | succ fuel ih =>
    intro n c hc
    rw [natDecimalAux] at hc
    by_cases hn : n = 0
    · simp [hn] at hc
    · simp only [hn, if_false, List.mem_append, List.mem_singleton] at hc
      rcases hc with hc | hc
      · exact ih (n / 10) c hc
      · subst hc
        exact digitChar_isDigit (n % 10) (Nat.mod_lt n (by norm_num))

theorem natDecimal_digits (n : Nat) : ∀ c ∈ natDecimal n, c.isDigit = true := by
  unfold natDecimal
  by_cases hn : n = 0
  · intro c hc
    simp only [hn, if_true] at hc
    simp at hc
    subst hc
    decide
  · simp only [hn, if_false]
    exact natDecimalAux_digits n n

theorem padZeros_digits (w : Nat) (s : List Char) (hs : ∀ c ∈ s, c.isDigit = true) :
    ∀ c ∈ padZeros w s, c.isDigit = true := by
  intro c hc
  simp only [padZeros] at hc
  rcases List.mem_append.mp hc with hc | hc
  · obtain ⟨-, rfl⟩ := List.mem_replicate.mp hc
    decide
  · exact hs c hc

theorem formatTimestamp_length (t : LocalDateTime) (hy : t.year ≤ 9999)
    (hmo : t.month ≤ 99) (hd : t.day ≤ 99) (hh : t.hour ≤ 99)
    (hmi : t.minute ≤ 99) (hs : t.second ≤ 99) :
    (formatTimestamp t).length = 14 := by
  have e4 : (10 : Nat) ^ 4 = 10000 := by norm_num
  have e2 : (10 : Nat) ^ 2 = 100 := by norm_num
  have l1 := padZeros_length 4 (natDecimal t.year)
    (natDecimal_length_le _ 4 (by omega) (by omega))
  have l2 := padZeros_length 2 (natDecimal t.month)
    (natDecimal_length_le _ 2 (by omega) (by omega))
  have l3 := padZeros_length 2 (natDecimal t.day)
    (natDecimal_length_le _ 2 (by omega) (by omega))
  have l4 := padZeros_length 2 (natDecimal t.hour)
    (natDecimal_length_le _ 2 (by omega) (by omega))
  have l5 := padZeros_length 2 (natDecimal t.minute)
    (natDecimal_length_le _ 2 (by omega) (by omega))
  have l6 := padZeros_length 2 (natDecimal t.second)
    (natDecimal_length_le _ 2 (by omega) (by omega))
  show (formatTimestampChars t).length = 14
  simp only [formatTimestampChars, List.length_append, l1, l2, l3, l4, l5, l6]

theorem formatTimestamp_digits (t : LocalDateTime) :
    ∀ c ∈ (formatTimestamp t).data, c.isDigit = true := by
  intro c hc
  have hc' : c ∈ formatTimestampChars t := hc
  simp only [formatTimestampChars, List.mem_append] at hc'
  rcases hc' with ((((h | h) | h) | h) | h) | h
  · exact padZeros_digits 4 _ (natDecimal_digits t.year) c h
  · exact padZeros_digits 2 _ (natDecimal_digits t.month) c h
  · exact padZeros_digits 2 _ (natDecimal_digits t.day) c h
  · exact padZeros_digits 2 _ (natDecimal_digits t.hour) c h
  · exact padZeros_digits 2 _ (natDecimal_digits t.minute) c h
  · exact padZeros_digits 2 _ (natDecimal_digits t.second) c h

theorem nanoid_length (len : Nat) (r : Nat → Fin 64) : (nanoid len r).length = len := by
  show ((List.range len).map _).length = len
  simp

theorem nanoid_chars (len : Nat) (r : Nat → Fin 64) :
    ∀ c ∈ (nanoid len r).data, c ∈ urlAlphabet := by
  intro c hc
  have hc' : c ∈ (List.range len).map
      (fun i => urlAlphabet.get (Fin.cast urlAlphabet_length.symm (r i))) := hc
  obtain ⟨i, -, rfl⟩ := List.mem_map.mp hc'
  exact List.get_mem urlAlphabet _ _

/-- C5: the composed filename has the shape random-id, underscore,
timestamp, ".png" with the random token first; the random token has 10
symbols drawn from the 64-symbol URL-safe nanoid alphabet, and the
timestamp is the local time rendered as YYYYMMDDHHMMSS, 14 digit
characters at second precision. -/
theorem C5_filename_shape (env : Env) (fs : FsState) (prompt resources_path : String)
    (f : String) (fs' : FsState)
    (h : generate_image_from_gemini env fs prompt resources_path = (GenResult.ok f, fs'))
    (hy : env.now.year ≤ 9999) (hmo : env.now.month ≤ 99) (hd : env.now.day ≤ 99)
    (hh : env.now.hour ≤ 99) (hmi : env.now.minute ≤ 99) (hs : env.now.second ≤ 99) :
    f = nanoid 10 env.rand ++ "_" ++ formatTimestamp env.now ++ ".png" ∧
    (nanoid 10 env.rand).length = 10 ∧
    (∀ c ∈ (nanoid 10 env.rand).data, c ∈ urlAlphabet) ∧
    urlAlphabet.length = 64 ∧ 36 ≤ urlAlphabet.length ∧ urlAlphabet.Nodup ∧
    (∀ c ∈ urlAlphabet, c.isAlphanum = true ∨ c = '-' ∨ c = '_') ∧
    formatTimestamp env.now = ⟨padZeros 4 (natDecimal env.now.year) ++
      padZeros 2 (natDecimal env.now.month) ++ padZeros 2 (natDecimal env.now.day) ++
      padZeros 2 (natDecimal env.now.hour) ++ padZeros 2 (natDecimal env.now.minute) ++
      padZeros 2 (natDecimal env.now.second)⟩ ∧
    (formatTimestamp env.now).length = 14 ∧
    (∀ c ∈ (formatTimestamp env.now).data, c.isDigit = true) := by
  refine ⟨(generate_ok_inv env fs prompt resources_path f fs' h).1,
    nanoid_length 10 env.rand, nanoid_chars 10 env.rand, rfl, by decide, by decide,
    by decide, rfl, formatTimestamp_length env.now hy hmo hd hh hmi hs,
    formatTimestamp_digits env.now⟩

/-- Witness for C5 at a concrete input: the concrete run of the pipeline
yields the concrete composed filename with all the shape properties. -/
theorem C5_witness :
    "___________20250102030405.png" =
        nanoid 10 envOkSample.rand ++ "_" ++ formatTimestamp envOkSample.now ++ ".png" ∧
      (nanoid 10 envOkSample.rand).length = 10 ∧
      (∀ c ∈ (nanoid 10 envOkSample.rand).data, c ∈ urlAlphabet) ∧
      urlAlphabet.length = 64 ∧ 36 ≤ urlAlphabet.length ∧ urlAlphabet.Nodup ∧
      (∀ c ∈ urlAlphabet, c.isAlphanum = true ∨ c = '-' ∨ c = '_') ∧
      formatTimestamp envOkSample.now = ⟨padZeros 4 (natDecimal envOkSample.now.year) ++
        padZeros 2 (natDecimal envOkSample.now.month) ++
        padZeros 2 (natDecimal envOkSample.now.day) ++
        padZeros 2 (natDecimal envOkSample.now.hour) ++
        padZeros 2 (natDecimal envOkSample.now.minute) ++
        padZeros 2 (natDecimal envOkSample.now.second)⟩ ∧
      (formatTimestamp envOkSample.now).length = 14 ∧
      (∀ c ∈ (formatTimestamp envOkSample.now).data, c.isDigit = true) :=
  C5_filename_shape envOkSample ⟨[]⟩ "a red cube" "/base"
    "___________20250102030405.png"
    ⟨[("/base/images/___________20250102030405.png", [0, 0, 0])]⟩
    (by decide) (by decide) (by decide) (by decide) (by decide) (by decide) (by decide)

/-- C6: a parsed response with an empty predictions list makes the
pipeline fail with the empty-result error "No images were generated";
otherwise only the first prediction is used — the result is unchanged
under any replacement of the later predictions — the first-element access
never goes out of bounds, and a malformed base64 payload in the first
prediction yields the decode error. -/
theorem C6_first_prediction_only (env : Env) (fs : FsState)
    (prompt resources_path body key : String)
    (hkey : env.geminiApiKey = some key) (hhttp : env.httpResult = Except.ok body) :
    (∀ resp, env.parseGemini body = Except.ok resp → resp.predictions = [] →
       generate_image_from_gemini env fs prompt resources_path =
         (GenResult.err GenError.emptyResult, fs) ∧
       GenError.toMessage GenError.emptyResult = "No images were generated") ∧
    (∀ p rest, env.parseGemini body = Except.ok { predictions := p :: rest } →
       (p :: rest)[0]? = some p ∧
       (∀ rest', generate_image_from_gemini
           { env with parseGemini := fun _ => Except.ok { predictions := p :: rest' } }
           fs prompt resources_path =
         generate_image_from_gemini env fs prompt resources_path) ∧
       (base64Decode p.bytes_base64_encoded = none →
         generate_image_from_gemini env fs prompt resources_path =
           (GenResult.err GenError.decodeError, fs))) ∧
    (generate_image_from_gemini env fs prompt resources_path).1 ≠
      GenResult.indexOutOfBounds := by
  refine ⟨?_, ?_, generate_image_from_gemini_no_panic env fs prompt resources_path⟩
  · intro resp hp hnil
    constructor
    · unfold generate_image_from_gemini
      simp [hkey, hhttp, hp, hnil]
    · rfl
  · intro p rest hp
    refine ⟨by simp, ?_, ?_⟩
    · intro rest'
      unfold generate_image_from_gemini
      simp [hkey, hhttp, hp]
    · intro hdec
      unfold generate_image_from_gemini
      simp [hkey, hhttp, hp, hdec]

/-- A concrete environment whose backend response parses to an empty
predictions list. -/
def envEmptySample : Env :=
  { envOkSample with parseGemini := fun _ => Except.ok { predictions := [] } }

/-- Witness for C6 at a concrete input: the empty-predictions response
produces exactly the empty-result error and no store change. -/
theorem C6_witness :
    generate_image_from_gemini envEmptySample ⟨[]⟩ "a red cube" "/base" =
      (GenResult.err GenError.emptyResult, (⟨[]⟩ : FsState)) ∧
    GenError.toMessage GenError.emptyResult = "No images were generated" :=
  (C6_first_prediction_only envEmptySample ⟨[]⟩ "a red cube" "/base" "body" "k"
    rfl rfl).1 { predictions := [] } rfl rfl

/-- The listing loop of list_images, written as a fold, pushes exactly the
UTF-8-convertible names of the regular-file entries, in order. -/
theorem list_images_foldl (entries : List DirEntry) :
    ∀ acc : List String,
      entries.foldl
        (fun images entry =>
          if entry.is_file then
            match entry.name.to_str with
            | some filename_str => images ++ [filename_str]
            | none => images
          else images)
        acc =
      acc ++ (entries.filter (fun e => e.is_file)).filterMap (fun e => e.name.to_str) := by
  induction entries with
  | nil => intro acc; simp
  | cons e rest ih =>
    intro acc
    rw [List.foldl_cons]
    cases hf : e.is_file with
    | false => simp only [hf, if_false, ih, List.filter_cons, hf]; simp
    | true =>
      cases hn : e.name.to_str with
      | none =>
        simp only [hf, if_true, hn, ih, List.filter_cons, hf]
        simp [List.filterMap_cons, hn]
      | some s =>
        simp only [hf, if_true, hn, ih, List.filter_cons, hf]
        simp [List.filterMap_cons, hn]

/-- C7: on a readable directory, list_images returns exactly the bare
names of the regular-file entries (directories excluded, UTF-8 names
only, no path prefix); an empty directory gives the empty list; an
unreadable directory gives an I/O error. -/
theorem C7_list_images_spec (dir : ImagesDir) :
    (dir.readable = true →
       list_images dir = Except.ok
         ((dir.entries.filter (fun e => e.is_file)).filterMap (fun e => e.name.to_str))) ∧
    (dir.readable = true → dir.entries = [] → list_images dir = Except.ok []) ∧
    (dir.readable = false →
       list_images dir = Except.error "could not read images directory") := by
  refine ⟨?_, ?_, ?_⟩
  · intro hr
    unfold list_images
    rw [hr]
    simp [list_images_foldl]
  · intro hr hnil
    unfold list_images
    rw [hr, hnil]
    simp
  · intro hr
    unfold list_images
    rw [hr]
    simp

/-- Witness for C7 at a concrete input: a readable directory holding one
regular file named "a.png" and one subdirectory lists exactly "a.png". -/
theorem C7_witness :
    list_images ⟨true, [⟨OsName.utf8 "a.png", true⟩, ⟨OsName.utf8 "sub", false⟩]⟩ =
      Except.ok (((⟨true, [⟨OsName.utf8 "a.png", true⟩, ⟨OsName.utf8 "sub", false⟩]⟩ :
        ImagesDir).entries.filter (fun e => e.is_file)).filterMap
          (fun e => e.name.to_str)) :=
  (C7_list_images_spec
    ⟨true, [⟨OsName.utf8 "a.png", true⟩, ⟨OsName.utf8 "sub", false⟩]⟩).1 rfl

/-- C10: a regular-file entry whose name is not valid UTF-8 is silently
omitted by list_images: the listing succeeds and equals the listing of
the directory without that entry, with no error reported. -/
theorem C10_nonUtf8_silently_omitted (bs : List Nat) (pre post : List DirEntry) :
    list_images ⟨true, pre ++ ⟨OsName.nonUtf8 bs, true⟩ :: post⟩ =
      list_images ⟨true, pre ++ post⟩ ∧
    ∃ l, list_images ⟨true, pre ++ ⟨OsName.nonUtf8 bs, true⟩ :: post⟩ = Except.ok l := by
  constructor
  · unfold list_images
    simp only [if_true]
    rw [list_images_foldl, list_images_foldl]
    simp [List.filter_append, List.filterMap_append, List.filter_cons,
      List.filterMap_cons, OsName.to_str]
  · unfold list_images
    simp

/-- Inversion of a successful ensure_resources_dir run: the platform
directory resolved, the returned base path is its artifacts subdirectory,
and both the base and images directories exist afterwards. -/
theorem ensure_ok_inv (env : ProjectEnv) (fs : DirFs) (p : String) (fs' : DirFs)
    (h : ensure_resources_dir env fs = Except.ok (p, fs')) :
    ∃ b, env.dataLocalDir = some b ∧ p = b ++ "/artifacts" ∧
      p ∈ fs'.dirs ∧ (p ++ "/images") ∈ fs'.dirs := by
  unfold ensure_resources_dir at h
  cases hb : env.dataLocalDir with
  | none => simp [hb] at h
  | some b =>
    have key : p = b ++ "/artifacts" ∧ p ∈ fs'.dirs ∧
        ((b ++ "/artifacts") ++ "/images") ∈ fs'.dirs := by
      by_cases hr : (b ++ "/artifacts") ∈ fs.dirs
      · by_cases hi : ((b ++ "/artifacts") ++ "/images") ∈ fs.dirs
        · simp only [hb, hr, hi, if_true, Except.ok.injEq, Prod.mk.injEq] at h
          obtain ⟨hp, hfs⟩ := h
          subst hp
          subst hfs
          exact ⟨rfl, hr, hi⟩
        · cases hco : env.createDirOk with
          | false => simp [hb, hr, hi, hco] at h
          | true =>
            simp only [hb, hr, hi, hco, if_true, if_false, Except.ok.injEq,
              Prod.mk.injEq] at h
            obtain ⟨hp, hfs⟩ := h
            subst hp
            subst hfs
            exact ⟨rfl, List.mem_append_left _ hr,
              List.mem_append_right _ (List.mem_singleton_self _)⟩
      · cases hca : env.createDirAllOk with
        | false => simp [hb, hr, hca] at h
        | true =>
          by_cases hi1 : ((b ++ "/artifacts") ++ "/images") ∈
              fs.dirs ++ [b ++ "/artifacts"]
          · simp only [hb, hr, hca, hi1, if_true, if_false, Except.ok.injEq,
              Prod.mk.injEq] at h
            obtain ⟨hp, hfs⟩ := h
            subst hp
            subst hfs
            exact ⟨rfl, List.mem_append_right _ (List.mem_singleton_self _), hi1⟩
          · cases hco : env.createDirOk with
            | false => simp [hb, hr, hca, hi1, hco] at h
            | true =>
              simp only [hb, hr, hca, hi1, hco, if_true, if_false, Except.ok.injEq,
                Prod.mk.injEq] at h
              obtain ⟨hp, hfs⟩ := h
              subst hp
              subst hfs
              refine ⟨rfl, ?_, ?_⟩
              · exact List.mem_append_left _
                  (List.mem_append_right _ (List.mem_singleton_self _))
              · exact List.mem_append_right _ (List.mem_singleton_self _)
    exact ⟨b, rfl, key.1, key.2.1, key.1 ▸ key.2.2⟩

/-- When both directories already exist, ensure_resources_dir performs no
creation and returns the base path with the filesystem unchanged. -/
theorem ensure_present (env : ProjectEnv) (fs : DirFs) (b : String)
    (hb : env.dataLocalDir = some b)
    (hr : (b ++ "/artifacts") ∈ fs.dirs)
    (hi : ((b ++ "/artifacts") ++ "/images") ∈ fs.dirs) :
    ensure_resources_dir env fs = Except.ok (b ++ "/artifacts", fs) := by
  unfold ensure_resources_dir
  simp [hb, hr, hi]

/-- C9: ensure_resources_dir is idempotent — with both directories
present it succeeds leaving the filesystem unchanged, a second run after
any successful run returns the same base path and state — when the
directories are missing and creation succeeds it creates both, it fails
when the application-data directory cannot be resolved, and it fails when
either creation site fails: the create_dir_all of the artifacts base
directory, or the create_dir of the images subdirectory (whether the base
was already present or was just created). -/
theorem C9_ensure_resources_dir_spec (env : ProjectEnv) (fs : DirFs) :
    (∀ b, env.dataLocalDir = some b →
       ((b ++ "/artifacts") ∈ fs.dirs → ((b ++ "/artifacts") ++ "/images") ∈ fs.dirs →
          ensure_resources_dir env fs = Except.ok (b ++ "/artifacts", fs)) ∧
       (env.createDirAllOk = true → env.createDirOk = true →
          ∃ fs', ensure_resources_dir env fs = Except.ok (b ++ "/artifacts", fs') ∧
            (b ++ "/artifacts") ∈ fs'.dirs ∧
            ((b ++ "/artifacts") ++ "/images") ∈ fs'.dirs) ∧
       ((b ++ "/artifacts") ∉ fs.dirs → env.createDirAllOk = false →
          ∃ e, ensure_resources_dir env fs = Except.error e) ∧
       (((b ++ "/artifacts") ++ "/images") ∉ fs.dirs → env.createDirOk = false →
          ((b ++ "/artifacts") ∈ fs.dirs ∨ env.createDirAllOk = true) →
          ∃ e, ensure_resources_dir env fs = Except.error e)) ∧
    (env.dataLocalDir = none → ∃ e, ensure_resources_dir env fs = Except.error e) ∧
    (∀ p fs', ensure_resources_dir env fs = Except.ok (p, fs') →
       ensure_resources_dir env fs' = Except.ok (p, fs')) := by
  refine ⟨?_, ?_, ?_⟩
  · intro b hb
    refine ⟨ensure_present env fs b hb, ?_, ?_, ?_⟩
    · intro hca hco
      by_cases hr : (b ++ "/artifacts") ∈ fs.dirs
      · by_cases hi : ((b ++ "/artifacts") ++ "/images") ∈ fs.dirs
        · exact ⟨fs, ensure_present env fs b hb hr hi, hr, hi⟩
        · refine ⟨⟨fs.dirs ++ [(b ++ "/artifacts") ++ "/images"]⟩, ?_, ?_, ?_⟩
          · unfold ensure_resources_dir
            simp [hb, hr, hi, hco]
          · exact List.mem_append_left _ hr
          · exact List.mem_append_right _ (List.mem_singleton_self _)
      · by_cases hi1 : ((b ++ "/artifacts") ++ "/images") ∈ fs.dirs ++ [b ++ "/artifacts"]
        · refine ⟨⟨fs.dirs ++ [b ++ "/artifacts"]⟩, ?_, ?_, ?_⟩
          · unfold ensure_resources_dir
            simp only [hb, hr, hca, hi1, if_true, if_false]
          · exact List.mem_append_right _ (List.mem_singleton_self _)
          · exact hi1
        · refine ⟨⟨(fs.dirs ++ [b ++ "/artifacts"]) ++
              [(b ++ "/artifacts") ++ "/images"]⟩, ?_, ?_, ?_⟩
          · unfold ensure_resources_dir
            simp only [hb, hr, hca, hi1, hco, if_true, if_false]
          · exact List.mem_append_left _
              (List.mem_append_right _ (List.mem_singleton_self _))
          · exact List.mem_append_right _ (List.mem_singleton_self _)
    · intro hr hca
      refine ⟨"failed to create resources directory", ?_⟩
      unfold ensure_resources_dir
      simp [hb, hr, hca]
    · intro himg hco hbase
      have h7 : ("/images" : String).length = 7 := rfl
      have hne : ((b ++ "/artifacts") ++ "/images") ≠ (b ++ "/artifacts") := by
        intro he
        have hlen := congrArg String.length he
        simp only [String.length_append] at hlen
        omega
      rcases hbase with hr | hca
      · refine ⟨"failed to create images directory", ?_⟩
        unfold ensure_resources_dir
        simp [hb, hr, himg, hco]
      · by_cases hr : (b ++ "/artifacts") ∈ fs.dirs
        · refine ⟨"failed to create images directory", ?_⟩
          unfold ensure_resources_dir
          simp [hb, hr, himg, hco]
        · have hi1 : ((b ++ "/artifacts") ++ "/images") ∉ fs.dirs ++ [b ++ "/artifacts"] := by
            simp only [List.mem_append, List.mem_singleton]
            rintro (h | h)
            · exact himg h
            · exact hne h
          refine ⟨"failed to create images directory", ?_⟩
          unfold ensure_resources_dir
          simp [hb, hr, hca, hi1, hco]
  · intro hb
    refine ⟨"Could not determine application data directory", ?_⟩
    unfold ensure_resources_dir
    simp [hb]
  · intro p fs' h
    obtain ⟨b, hb, hp, hmem, hmemi⟩ := ensure_ok_inv env fs p fs' h
    subst hp
    exact ensure_present env fs' b hb hmem hmemi

/-- Witness for C9 at a concrete input: with both directories present the
run is a no-op returning the base path unchanged. -/
theorem C9_witness :
    ensure_resources_dir ⟨some "/home/u/.local/share", true, true⟩
        ⟨["/home/u/.local/share/artifacts", "/home/u/.local/share/artifacts/images"]⟩ =
      Except.ok ("/home/u/.local/share" ++ "/artifacts",
        ⟨["/home/u/.local/share/artifacts", "/home/u/.local/share/artifacts/images"]⟩) :=
  ((C9_ensure_resources_dir_spec ⟨some "/home/u/.local/share", true, true⟩
    ⟨["/home/u/.local/share/artifacts", "/home/u/.local/share/artifacts/images"]⟩).1
    "/home/u/.local/share" rfl).1 (by decide) (by decide)

/-- Counterexample to C4 as stated: a startup state in which
GEMINI_API_KEY is present but the application-data directory cannot be
resolved — ensure_resources_dir, which main runs first, fails — so
neither the HTTP socket is bound nor the protocol loop started, refuting
the unconditional claim that a present credential implies both servers
start. -/
theorem C4_counterexample :
    (⟨Except.error "Could not determine application data directory", true,
        Except.ok (), Except.ok ()⟩ : MainEnv).geminiKeySet = true ∧
    Event.bindHttp [127, 0, 0, 1] 9981 ∉
      mainTrace ⟨Except.error "Could not determine application data directory", true,
        Except.ok (), Except.ok ()⟩ ∧
    Event.startMcp ∉
      mainTrace ⟨Except.error "Could not determine application data directory", true,
        Except.ok (), Except.ok ()⟩ := by
  refine ⟨rfl, ?_, ?_⟩ <;> decide

/-- C4 as amended: if GEMINI_API_KEY is absent the process exits with a
non-zero status and a diagnostic message, without ever binding the HTTP
socket or starting the protocol loop; if it is present and the store
preparation succeeded, both servers are started. -/
theorem C4_credential_gate (env : MainEnv) :
    (env.geminiKeySet = false →
       ((∃ c, Event.exitProcess c ∈ mainTrace env ∧ c ≠ 0) ∨
        (∃ e, Event.returnErr e ∈ mainTrace env)) ∧
       (∀ h p, Event.bindHttp h p ∉ mainTrace env) ∧
       Event.startMcp ∉ mainTrace env ∧
       (∀ rp, env.ensureDirsResult = Except.ok rp →
          Event.printErr "Error: GEMINI_API_KEY environment variable is not set. Image generation will fail." ∈
              mainTrace env ∧
            Event.exitProcess 1 ∈ mainTrace env)) ∧
    (env.geminiKeySet = true → ∀ rp, env.ensureDirsResult = Except.ok rp →
       Event.bindHttp [127, 0, 0, 1] 9981 ∈ mainTrace env ∧
       Event.startMcp ∈ mainTrace env) := by
  obtain ⟨edr, gk, sr, wr⟩ := env
  constructor
  · rintro rfl
    cases edr with
    | error e =>
      refine ⟨Or.inr ⟨e, ?_⟩, ?_, ?_, ?_⟩
      · simp [mainTrace]
      · intro h p
        simp [mainTrace]
      · simp [mainTrace]
      · intro rp hrp
        simp at hrp
    | ok rp0 =>
      refine ⟨Or.inl ⟨1, ?_, by decide⟩, ?_, ?_, ?_⟩
      · simp [mainTrace]
      · intro h p
        simp [mainTrace]
      · simp [mainTrace]
      · intro rp hrp
        exact ⟨by simp [mainTrace], by simp [mainTrace]⟩
  · rintro rfl rp hrp
    cases edr with
    | error e => simp at hrp
    | ok rp0 =>
      constructor <;> simp [mainTrace]

/-- Witness for C4 at a concrete input: with the credential present and
the store prepared, the trace binds the HTTP server and starts the MCP
server. -/
theorem C4_witness :
    Event.bindHttp [127, 0, 0, 1] 9981 ∈
        mainTrace ⟨Except.ok "/base", true, Except.ok (), Except.ok ()⟩ ∧
      Event.startMcp ∈
        mainTrace ⟨Except.ok "/base", true, Except.ok (), Except.ok ()⟩ :=
  (C4_credential_gate ⟨Except.ok "/base", true, Except.ok (), Except.ok ()⟩).2
    rfl "/base" rfl

/-- C8: when startup succeeded and the protocol serving loop exits
cleanly (transport closed by the host), the trace is exactly startup,
loop exit, cancellation of the HTTP task, then success exit; and in every
trace whatsoever, a cancellation of the HTTP task occurs only immediately
after the protocol loop exit and immediately before the success exit —
the HTTP task is never cancelled before the protocol session ends and has
no independent shutdown trigger. -/
theorem C8_shutdown_order (env : MainEnv) :
    (∀ rp, env.ensureDirsResult = Except.ok rp → env.geminiKeySet = true →
       env.serveResult = Except.ok () → env.waitingResult = Except.ok () →
       mainTrace env = [Event.ensureDirs, Event.bindHttp [127, 0, 0, 1] 9981,
         Event.startMcp, Event.mcpExited, Event.abortHttp, Event.returnOk]) ∧
    (Event.abortHttp ∈ mainTrace env →
       ∃ pre, mainTrace env =
         pre ++ [Event.mcpExited, Event.abortHttp, Event.returnOk]) := by
  obtain ⟨edr, gk, sr, wr⟩ := env
  constructor
  · rintro rp hrp rfl hsr hwr
    cases edr with
    | error e => simp at hrp
    | ok rp0 =>
      have hsr' : sr = Except.ok () := hsr
      have hwr' : wr = Except.ok () := hwr
      subst hsr'
      subst hwr'
      simp [mainTrace]
  · intro habort
    cases edr with
    | error e => simp [mainTrace] at habort
    | ok rp0 =>
      cases gk with
      | false => simp [mainTrace] at habort
      | true =>
        cases sr with
        | error e => simp [mainTrace] at habort
        | ok u =>
          cases wr with
          | error e => simp [mainTrace] at habort
          | ok u2 =>
            refine ⟨[Event.ensureDirs, Event.bindHttp [127, 0, 0, 1] 9981,
              Event.startMcp], ?_⟩
            simp [mainTrace]

/-- Witness for C8 at a concrete input: the clean-shutdown trace in
order. -/
theorem C8_witness :
    mainTrace ⟨Except.ok "/base", true, Except.ok (), Except.ok ()⟩ =
      [Event.ensureDirs, Event.bindHttp [127, 0, 0, 1] 9981, Event.startMcp,
       Event.mcpExited, Event.abortHttp, Event.returnOk] :=
  (C8_shutdown_order ⟨Except.ok "/base", true, Except.ok (), Except.ok ()⟩).1
    "/base" rfl rfl rfl rfl

end Imagen3Mcp
